import Mathlib

/-!
Verification of the SWAP_analysis repository (src/tools.py) against its
natural-language specification.

The embedding models a pandas DataFrame as a rectangular table of string
cells.  Timestamps are modelled as natural numbers counting hours (the
shallow embedding of datetime values: pd.to_datetime is an order-preserving
injection from valid timestamp strings, so comparisons and the hourly
date_range act on the hour count).  Numeric measurement values are modelled
as rationals; the missing-value marker NaN produced by
pd.to_numeric(errors="coerce") and by reindex(fill_value=np.nan) is
modelled by the value none of Option.
-/

namespace SWAPTools

/-- Whether the string ends with the given suffix (str.endswith / the
extension dispatch of tools.py line 38). -/
def strEndsWith (s post : String) : Bool := post.data.isSuffixOf s.data

/-- Whether the string starts with the given first piece: the anchored
regex match of df.filter(regex) in tools.py lines 60 and 62. -/
def strStartsWith (s first : String) : Bool := first.data.isPrefixOf s.data

/-- The value of one decimal digit character. -/
def digit? (c : Char) : Option Nat :=
  if c.isDigit then some (c.toNat - 48) else none

/-- The value of a nonempty all-digit character list; none otherwise. -/
def digitsVal (l : List Char) : Option Nat :=
  l.foldl
    (fun acc c =>
      match acc, digit? c with
      | some a, some d => some (a * 10 + d)
      | _, _ => none)
    (some 0)

/-- A decimal integer numeral, with an optional leading minus sign. -/
def strToInt (s : String) : Option Int :=
  match s.data with
  | [] => none
  | '-' :: rest =>
      if rest.isEmpty then none
      else (digitsVal rest).map (fun n => -(n : Int))
  | l => (digitsVal l).map (fun n => (n : Int))

/-- A source file: either it parses into a rectangular grid of cells, or the
delimited-text / spreadsheet parse fails (corrupt or unrecognized data). -/
inductive FileContent where
  | table (cells : List (List String))
  | corrupt
deriving DecidableEq

/-- The untyped frame produced by the pandas readers: column labels plus the
data rows (lists of string cells). -/
structure RawFrame where
  cols : List String
  rows : List (List String)
deriving DecidableEq

/-- The Python exceptions and error events that the routines in tools.py can
produce.  ioErr is the IOError object constructed (but never raised) at
tools.py line 44; nameErr is the NameError raised at line 48 when the
except-branch of lines 41-44 has left the name dataframe unbound. -/
inductive Err where
  | ioErr
  | nameErr
  | excelErr
  | indexErr
  | keyErr
  | valueErr
  | parseErr
deriving DecidableEq

/-- pd.read_excel(file_path, sheet_name = 0): the first row of the sheet is
consumed as the header row (default header = 0), the remaining rows are the
data rows. -/
def readExcel : FileContent → Option RawFrame
  | .table cells => some { cols := cells.headD [], rows := cells.drop 1 }
  | .corrupt => none

/-- pd.read_csv(file_path, skiprows = [0], header = None): the first file row
is skipped, no row is consumed as a header (the columns are the integer
positions 0, 1, ...), the remaining rows are the data rows. -/
def readCsv : FileContent → Option RawFrame
  | .table cells =>
      some { cols := (List.range (cells.headD []).length).map toString,
             rows := cells.drop 1 }
  | .corrupt => none

/-- tools.py lines 38-44.  A path ending in a spreadsheet extension is read
with pd.read_excel (an exception there propagates).  Any other path is read
with pd.read_csv inside try/except; on failure the except-branch merely
CONSTRUCTS IOError("File type is not of the expected type ...") without
raising or logging it, so the error object is discarded, the name dataframe
is never bound, and the next use of it (line 48) raises NameError. -/
def loadFrame (path : String) (content : FileContent) : Except Err RawFrame :=
  if strEndsWith path "xlsx" || strEndsWith path "xls" then
    match readExcel content with
    | some df => .ok df
    | none => .error .excelErr
  else
    match readCsv content with
    | some df => .ok df
    | none =>
        let discardedIOError := Err.ioErr
        let _ := discardedIOError
        .error .nameErr

/-- tools.py line 46: the columns dropped from the cleaned table. -/
def dropColNames : List String := ["batt_volt_Avg", "RECORD", "TIMESTAMP"]

/-- pd.to_datetime on one TIMESTAMP cell: a valid timestamp string denotes
its hour count, anything else raises (to_datetime default errors = "raise").
In the embedding a valid timestamp cell is a decimal numeral of hours. -/
def parseTime (s : String) : Option Nat :=
  if s.data.isEmpty then none else digitsVal s.data

/-- pd.to_numeric(errors = "coerce") on one cell: an unparsable cell becomes
the missing-value marker (none), it never raises.  In the embedding a
parsable numeric cell is a decimal integer numeral. -/
def parseNum (s : String) : Option ℚ := (strToInt s).map (fun i => (i : ℚ))

/-- Position of the first column with the given label, as used by
dataframe.loc lookups (a missing label raises KeyError). -/
def colIdx (cols : List String) (c : String) : Option Nat :=
  cols.findIdx? (fun x => x == c)

/-- The cells of one row that survive line 57 (drop of batt_volt_Avg,
RECORD, TIMESTAMP), in original column order. -/
def keepCells (cols vals : List String) : List String :=
  ((cols.zip vals).filter (fun p => !(dropColNames.contains p.1))).map Prod.snd

/-- The cleaned table after tools.py line 57: the parsed Time value of each
kept row together with its remaining data cells, plus the remaining column
labels.  The Time column (inserted at the front by lines 54-56) is the Nat
component of each row. -/
structure Stage2 where
  cols : List String
  rows : List (Nat × List String)
deriving DecidableEq

/-- tools.py lines 38-57: read the file, locate the header row (first row
whose first cell is the literal TIMESTAMP, line 48), promote it to column
labels (line 49), locate the first data row (first row whose RECORD cell is
the literal string "0", line 50), drop all rows before it (line 51), parse
the TIMESTAMP column with pd.to_datetime (line 54), and drop the
batt_volt_Avg, RECORD and TIMESTAMP columns (line 57; a missing label there
raises KeyError).  Each .index[0] on an empty selection raises IndexError. -/
def stages12 (path : String) (content : FileContent) : Except Err Stage2 :=
  match loadFrame path content with
  | .error e => .error e
  | .ok df =>
    match df.rows.findIdx? (fun r => r.headD "" == "TIMESTAMP") with
    | none => .error .indexErr
    | some hi =>
      let cols := df.rows.getD hi []
      match colIdx cols "RECORD" with
      | none => .error .keyErr
      | some j =>
        match df.rows.findIdx? (fun r => r.getD j "" == "0") with
        | none => .error .indexErr
        | some si =>
          let kept := df.rows.drop si
          match colIdx cols "TIMESTAMP" with
          | none => .error .keyErr
          | some tj =>
            match kept.mapM
                (fun r => (parseTime (r.getD tj "")).map
                  (fun t => (t, keepCells cols r))) with
            | none => .error .parseErr
            | some rows2 =>
              if dropColNames.all (fun c => cols.contains c) then
                .ok { cols := cols.filter (fun c => !(dropColNames.contains c)),
                      rows := rows2 }
              else .error .keyErr

/-- tools.py lines 66-68: df.rename(columns = rename) relabels every column
that occurs as a key of the mapping; the guard "if rename:" skips the call
when the mapping is None or empty. -/
def applyRename (rn : Option (List (String × String))) (cols : List String) :
    List String :=
  match rn with
  | none => cols
  | some m =>
      if m.isEmpty then cols
      else cols.map (fun c =>
        match m.find? (fun p => p.1 == c) with
        | some p => p.2
        | none => c)

/-- The cells of one row in the columns whose label starts with the given
prefix string, as selected by df.filter(regex) with an anchored pattern
(tools.py lines 60 and 62). -/
def selectCells (pre : String) (cols vals : List String) : List String :=
  ((cols.zip vals).filter (fun p => strStartsWith p.1 pre)).map Prod.snd

/-- tools.py line 71: one redox cell is coerced to numeric and the
correction offset is added (NaN + correction = NaN, modelled by
Option.map). -/
def coerceCell (correction : ℚ) (v : String) : Option ℚ :=
  (parseNum v).map (fun x => x + correction)

/-- A cleaned numeric table: the Time index (Nat component of each row)
with one Option ℚ cell per column; none is the missing-value marker NaN. -/
@[ext]
structure QFrame where
  cols : List String
  rows : List (Nat × List (Option ℚ))
deriving DecidableEq

/-- tools.py lines 60-72: split the cleaned table into the redox subset
(columns starting with "redox") and the temperature subset (columns starting
with "temp"), attach the shared Time column to both, apply the optional
rename to both, coerce every non-Time cell to numeric, and add the
correction offset to the redox cells only.  The second to_numeric pass of
lines 75 and 77 acts on already-numeric data and is the identity. -/
def coerceFrames (correction : ℚ) (rn : Option (List (String × String)))
    (s2 : Stage2) : QFrame × QFrame :=
  ({ cols := applyRename rn (s2.cols.filter (fun c => strStartsWith c "redox")),
     rows := s2.rows.map (fun r =>
       (r.1, (selectCells "redox" s2.cols r.2).map (coerceCell correction))) },
   { cols := applyRename rn (s2.cols.filter (fun c => strStartsWith c "temp")),
     rows := s2.rows.map (fun r =>
       (r.1, (selectCells "temp" s2.cols r.2).map parseNum)) })

/-- pd.date_range(a, b, freq = "h"): every hour from a to b inclusive; empty
when a exceeds b. -/
def dateRange (a b : Nat) : List Nat := List.range' a (b + 1 - a)

/-- A row of missing-value markers, as produced for an absent hour by
reindex(fill_value = np.nan). -/
def fillRow (n : Nat) : List (Option ℚ) := List.replicate n none

/-- tools.py lines 74-83 for one subset: set Time as the index, build the
hourly date range from the first to the last index entry (df.index[0] on an
empty index raises IndexError; pandas reindex raises ValueError on a
duplicate index), and reindex onto that range, keeping the row of every
present timestamp and filling every absent hour with NaN. -/
def regularize (f : QFrame) : Except Err QFrame :=
  let times := f.rows.map Prod.fst
  if times.isEmpty then .error .indexErr
  else if times.Nodup then
    .ok { cols := f.cols,
          rows := (dateRange (times.headD 0) (times.getLastD 0)).map (fun u =>
            (u, match f.rows.find? (fun r => r.1 == u) with
                | some r => r.2
                | none => fillRow f.cols.length)) }
  else .error .valueErr

/-- tools.py lines 14-85: the whole cleanup_redox routine.  The redox subset
is regularized first (line 79 precedes line 80), matching the order in
which index errors surface. -/
def cleanup_redox (path : String) (content : FileContent) (correction : ℚ)
    (rn : Option (List (String × String))) : Except Err (QFrame × QFrame) :=
  match stages12 path content with
  | .error e => .error e
  | .ok s2 =>
    match regularize (coerceFrames correction rn s2).1 with
    | .error e => .error e
    | .ok fr =>
      match regularize (coerceFrames correction rn s2).2 with
      | .error e => .error e
      | .ok ft => .ok (fr, ft)

/-- tools.py lines 120-121 and 194-195: the identical row filter of
plot_redox and plot_temp, keeping the rows whose timestamp lies in the
half-open window: strictly after start_date and at or before end_date. -/
def maskFilter (f : QFrame) (startDate endDate : Nat) : QFrame :=
  { cols := f.cols,
    rows := f.rows.filter (fun r => startDate < r.1 && r.1 ≤ endDate) }

/-- The plotted series of one column position: the filtered time index
paired with that column's value in each row. -/
def seriesOf (g : QFrame) (p : Nat) : List (Nat × Option ℚ) :=
  g.rows.map (fun r => (r.1, r.2.getD p none))

/-- tools.py lines 87-153, reduced to the data plotted: one labeled series
per requested node, in order; a node absent from the columns raises
KeyError (modelled by none). -/
def plot_redox (f : QFrame) (nodes : List String) (startDate endDate : Nat) :
    Option (List (String × List (Nat × Option ℚ))) :=
  let g := maskFilter f startDate endDate
  nodes.mapM (fun n => (colIdx g.cols n).map (fun p => (n, seriesOf g p)))

/-- df.loc[:, nodes].mean(axis = 1) on one row: the arithmetic mean of the
non-missing values among the selected cells; NaN when every selected cell
is missing (pandas mean skipna behavior). -/
def rowMean (vals : List (Option ℚ)) : Option ℚ :=
  let xs := vals.filterMap id
  if xs.isEmpty then none else some (xs.sum / (xs.length : ℚ))

/-- tools.py lines 155-240, reduced to the data plotted: with mean = true a
single series labeled "Mean temperature" holding the row-wise mean of the
selected nodes (lines 196-198 and 205-209), otherwise one labeled series
per node; a node absent from the columns raises KeyError (none). -/
def plot_temp (f : QFrame) (nodes : List String) (startDate endDate : Nat)
    (mean : Bool) : Option (List (String × List (Nat × Option ℚ))) :=
  let g := maskFilter f startDate endDate
  if mean then
    (nodes.mapM (fun n => colIdx g.cols n)).map (fun ps =>
      [("Mean temperature",
        g.rows.map (fun r => (r.1, rowMean (ps.map (fun i => r.2.getD i none)))))])
  else
    nodes.mapM (fun n => (colIdx g.cols n).map (fun p => (n, seriesOf g p)))

/-- A small concrete input file used by the witnesses: one junk leading row,
the header row, then three data rows at hours 0, 1 and 3 (hour 2 missing),
with an unparsable redox cell in the hour-1 row. -/
def sampleContent : FileContent :=
  .table
    [["junk"],
     ["TIMESTAMP", "RECORD", "batt_volt_Avg", "redox_raw_Avg(1)", "temp_C_Avg(1)"],
     ["0", "0", "12", "-450", "21"],
     ["1", "1", "12", "x", "22"],
     ["3", "2", "12", "-400", "23"]]

/-- The cleaned string-stage table of sampleContent. -/
def sampleS2 : Stage2 :=
  { cols := ["redox_raw_Avg(1)", "temp_C_Avg(1)"],
    rows := [(0, ["-450", "21"]), (1, ["x", "22"]), (3, ["-400", "23"])] }

/-- The redox table cleanup_redox returns on sampleContent with
correction 200. -/
def sampleRedox : QFrame :=
  { cols := ["redox_raw_Avg(1)"],
    rows := [(0, [some (-250)]), (1, [none]), (2, [none]), (3, [some (-200)])] }

/-- The temperature table cleanup_redox returns on sampleContent. -/
def sampleTemp : QFrame :=
  { cols := ["temp_C_Avg(1)"],
    rows := [(0, [some 21]), (1, [some 22]), (2, [none]), (3, [some 23])] }

/-- The redox table cleanup_redox returns on sampleContent with
correction 0: the parsed raw values. -/
def sampleRedox0 : QFrame :=
  { cols := ["redox_raw_Avg(1)"],
    rows := [(0, [some (-450)]), (1, [none]), (2, [none]), (3, [some (-400)])] }

/-- An input whose parsed rows contain no row labeled TIMESTAMP in the
first column. -/
def contentNoHeader : FileContent :=
  .table [["x"], ["a", "b"], ["c", "d"]]

/-- The frame loadFrame produces for contentNoHeader on a csv path. -/
def dfNoHeader : RawFrame :=
  { cols := (List.range 1).map toString, rows := [["a", "b"], ["c", "d"]] }

/-- A small coerced frame with a 2-hour gap (hour 2 missing) used by the
reindexing witness. -/
def gapFrame : QFrame :=
  { cols := ["n1"], rows := [(0, [some 1]), (1, [none]), (3, [some 2])] }

/-- The regularized form of gapFrame. -/
def gapReg : QFrame :=
  { cols := ["n1"],
    rows := [(0, [some 1]), (1, [none]), (2, [none]), (3, [some 2])] }

attribute [local semireducible] Rat.add

lemma map_fst_pairmap {α β : Type} (l : List (Nat × α)) (g : Nat × α → β) :
    (l.map (fun r => (r.1, g r))).map Prod.fst = l.map Prod.fst := by
  induction l with
  | nil => rfl
  | cons a t ih => simp [ih]

lemma map_fst_tagmap {α : Type} (l : List Nat) (g : Nat → α) :
    ((l.map (fun u => (u, g u))).map Prod.fst) = l := by
  induction l with
  | nil => rfl
  | cons a t ih => simp [ih]

lemma coerce_fst_redox (corr : ℚ) (rn : Option (List (String × String)))
    (s2 : Stage2) :
    ((coerceFrames corr rn s2).1).rows.map Prod.fst = s2.rows.map Prod.fst :=
  map_fst_pairmap s2.rows _

lemma coerce_fst_temp (corr : ℚ) (rn : Option (List (String × String)))
    (s2 : Stage2) :
    ((coerceFrames corr rn s2).2).rows.map Prod.fst = s2.rows.map Prod.fst :=
  map_fst_pairmap s2.rows _

lemma regularize_index (f g : QFrame) (h : regularize f = .ok g) :
    g.rows.map Prod.fst =
      dateRange ((f.rows.map Prod.fst).headD 0)
        ((f.rows.map Prod.fst).getLastD 0) := by
  simp only [regularize] at h
  split at h
  · exact Except.noConfusion h
  · split at h
    · cases h
      exact map_fst_tagmap _ _
    · exact Except.noConfusion h

lemma cleanup_ok_parts (path : String) (content : FileContent) (corr : ℚ)
    (rn : Option (List (String × String))) (fr ft : QFrame)
    (h : cleanup_redox path content corr rn = .ok (fr, ft)) :
    ∃ s2, stages12 path content = .ok s2 ∧
      regularize (coerceFrames corr rn s2).1 = .ok fr ∧
      regularize (coerceFrames corr rn s2).2 = .ok ft := by
  unfold cleanup_redox at h
  split at h
  · exact Except.noConfusion h
  · next s2 he =>
      split at h
      · exact Except.noConfusion h
      · next fr1 h1 =>
          split at h
          · exact Except.noConfusion h
          · next ft1 h2 =>
              simp only [Except.ok.injEq, Prod.mk.injEq] at h
              obtain ⟨rfl, rfl⟩ := h
              exact ⟨s2, he, h1, h2⟩

lemma chain'_succ_range' : ∀ (n a : Nat),
    List.Chain' (fun x y => y = x + 1) (List.range' a n)
  | 0, _ => by simp
  | 1, a => by simp
  | n + 2, a => by
      rw [List.range'_succ]
      rw [List.range'_succ]
      refine List.Chain'.cons rfl ?_
      rw [← List.range'_succ]
      exact chain'_succ_range' (n + 1) (a + 1)

lemma getLastD_range' : ∀ (n a d : Nat), (List.range' a (n + 1)).getLastD d = a + n
  | 0, a, d => by simp [List.range'_succ]
  | n + 1, a, d => by
      rw [List.range'_succ, List.getLastD_cons, getLastD_range' n (a + 1) a]
      omega

lemma headD_range' (a n d : Nat) : (List.range' a (n + 1)).headD d = a := by
  rw [List.range'_succ]; rfl

lemma dateRange_eq (a b : Nat) (h : a ≤ b) :
    dateRange a b = List.range' a ((b - a) + 1) := by
  unfold dateRange; congr 1; omega

lemma coerceCell_zero (v : String) : coerceCell 0 v = parseNum v := by
  unfold coerceCell
  cases parseNum v <;> simp

lemma coerceCell_shift (corr : ℚ) (v : String) :
    coerceCell corr v = Option.map (fun x => x + corr) (coerceCell 0 v) := by
  unfold coerceCell
  cases parseNum v <;> simp

lemma coerce_rows_shift (corr : ℚ) (rn : Option (List (String × String)))
    (s2 : Stage2) :
    ((coerceFrames corr rn s2).1).rows =
      ((coerceFrames 0 rn s2).1).rows.map
        (fun r => (r.1, r.2.map (Option.map (fun x => x + corr)))) := by
  show s2.rows.map _ = (s2.rows.map _).map _
  rw [List.map_map]
  apply List.map_congr_left
  intro r _
  show (r.1, (selectCells "redox" s2.cols r.2).map (coerceCell corr)) = _
  simp only [Function.comp]
  congr 1
  rw [List.map_map]
  apply List.map_congr_left
  intro v _
  exact coerceCell_shift corr v

lemma coerce_shift (corr : ℚ) (rn : Option (List (String × String)))
    (s2 : Stage2) :
    (coerceFrames corr rn s2).1 =
      { cols := (coerceFrames 0 rn s2).1.cols,
        rows := (coerceFrames 0 rn s2).1.rows.map
          (fun r => (r.1, r.2.map (Option.map (fun x => x + corr)))) } :=
  QFrame.ext rfl (coerce_rows_shift corr rn s2)

lemma regularize_mapVals (f out : QFrame) (g : Option ℚ → Option ℚ)
    (hg : g none = none) (h : regularize f = .ok out) :
    regularize { cols := f.cols, rows := f.rows.map (fun r => (r.1, r.2.map g)) } =
      .ok { cols := out.cols,
            rows := out.rows.map (fun r => (r.1, r.2.map g)) } := by
  have hfst : ((f.rows.map (fun r => (r.1, r.2.map g))).map Prod.fst) =
      f.rows.map Prod.fst := map_fst_pairmap _ _
  simp only [regularize] at h ⊢
  rw [hfst]
  split at h
  · exact Except.noConfusion h
  · split at h
    · cases h
      next hne hnd =>
        rw [if_neg hne, if_pos hnd]
        refine congrArg Except.ok (QFrame.ext rfl ?_)
        rw [List.map_map]
        apply List.map_congr_left
        intro u _
        simp only [Function.comp]
        rw [List.find?_map]
        have hp : ((fun r : Nat × List (Option ℚ) => r.1 == u) ∘
            (fun r : Nat × List (Option ℚ) => (r.1, r.2.map g))) =
            (fun r : Nat × List (Option ℚ) => r.1 == u) := rfl
        rw [hp]
        cases hf : f.rows.find? (fun r => r.1 == u) with
        | none => simp [fillRow, hg]
        | some r => simp
    · exact Except.noConfusion h

/-- Claim C1: for every valid input (the string stage succeeds, and the
first observed timestamp is at or before the last one), each of the two
tables returned by cleanup_redox has as its time index the hourly date
range from the first to the last observed timestamp: strictly increasing,
uniform 1-hour spacing, no duplicates, spanning exactly from first to last
with no skipped hours. -/
theorem cleanup_index_hourly (path : String) (content : FileContent)
    (corr : ℚ) (rn : Option (List (String × String))) (s2 : Stage2)
    (fr ft : QFrame) (a b : Nat)
    (h2 : stages12 path content = .ok s2)
    (ha : (s2.rows.map Prod.fst).headD 0 = a)
    (hb : (s2.rows.map Prod.fst).getLastD 0 = b)
    (hab : a ≤ b)
    (h : cleanup_redox path content corr rn = .ok (fr, ft)) :
    fr.rows.map Prod.fst = dateRange a b ∧
    ft.rows.map Prod.fst = dateRange a b ∧
    List.Chain' (fun x y => y = x + 1) (dateRange a b) ∧
    (dateRange a b).Pairwise (· < ·) ∧
    (dateRange a b).Nodup ∧
    (dateRange a b).headD 0 = a ∧
    (dateRange a b).getLastD 0 = b := by
  obtain ⟨s2x, e, hr, ht⟩ := cleanup_ok_parts path content corr rn fr ft h
  rw [h2] at e
  cases e
  have hfr := regularize_index _ _ hr
  rw [coerce_fst_redox, ha, hb] at hfr
  have hft := regularize_index _ _ ht
  rw [coerce_fst_temp, ha, hb] at hft
  have hpw : (dateRange a b).Pairwise (· < ·) :=
    List.pairwise_lt_range' a (b + 1 - a)
  refine ⟨hfr, hft, chain'_succ_range' (b + 1 - a) a, hpw,
    hpw.imp Nat.ne_of_lt, ?_, ?_⟩
  · rw [dateRange_eq a b hab]
    exact headD_range' a (b - a) 0
  · rw [dateRange_eq a b hab, getLastD_range']
    omega

/-- Witness for C1 on the sample input: hours 0, 1, 3 observed, index is
the full hourly range 0..3 for both tables. -/
theorem cleanup_index_hourly_witness :
    sampleRedox.rows.map Prod.fst = dateRange 0 3 ∧
    sampleTemp.rows.map Prod.fst = dateRange 0 3 ∧
    List.Chain' (fun x y => y = x + 1) (dateRange 0 3) ∧
    (dateRange 0 3).Pairwise (· < ·) ∧
    (dateRange 0 3).Nodup ∧
    (dateRange 0 3).headD 0 = 0 ∧
    (dateRange 0 3).getLastD 0 = 3 :=
  cleanup_index_hourly "data.dat" sampleContent 200 none sampleS2 sampleRedox
    sampleTemp 0 3 rfl rfl rfl (by decide) rfl

/-- Claim C2: the hourly reindexing step (tools.py lines 79-83) keeps every
row whose timestamp is present in the source data unchanged (the output
pair at a present timestamp is a source row), and assigns a full row of
missing-value markers to every hour of the computed range that is absent
from the source data. -/
theorem reindex_fills_and_preserves (f g : QFrame) (h : regularize f = .ok g)
    (p : Nat × List (Option ℚ)) (hp : p ∈ g.rows) :
    (p.1 ∈ f.rows.map Prod.fst → p ∈ f.rows) ∧
    (p.1 ∉ f.rows.map Prod.fst → p.2 = fillRow f.cols.length) := by
  simp only [regularize] at h
  split at h
  · exact Except.noConfusion h
  · split at h
    · cases h
      simp only [List.mem_map] at hp
      obtain ⟨u, hu, rfl⟩ := hp
      constructor
      · intro hmem
        rw [List.mem_map] at hmem
        obtain ⟨q, hq, hq1⟩ := hmem
        cases hf : List.find? (fun r => r.1 == u) f.rows with
        | none =>
            rw [List.find?_eq_none] at hf
            exact absurd (by simp [hq1]) (hf q hq)
        | some r =>
            have hr1 : r.1 = u := by simpa using List.find?_some hf
            have hrm : r ∈ f.rows := List.mem_of_find?_eq_some hf
            simp only [hf]
            rw [← hr1]
            exact hrm
      · intro hnot
        cases hf : List.find? (fun r => r.1 == u) f.rows with
        | some r =>
            have hr1 : r.1 = u := by simpa using List.find?_some hf
            have hmm : u ∈ f.rows.map Prod.fst := by
              rw [← hr1]
              exact List.mem_map_of_mem Prod.fst (List.mem_of_find?_eq_some hf)
            exact absurd hmm hnot
        | none => simp [hf]
    · exact Except.noConfusion h

/-- Witness for C2 on a frame with hours 0, 1, 3: absent hour 2 receives
the marker fill row, present hour 1 keeps its source row. -/
theorem reindex_fills_and_preserves_witness :
    (([none] : List (Option ℚ)) = fillRow gapFrame.cols.length) ∧
    ((1, ([none] : List (Option ℚ))) ∈ gapFrame.rows) :=
  ⟨(reindex_fills_and_preserves gapFrame gapReg rfl (2, [none])
      (by simp [gapReg])).2 (by simp [gapFrame]),
   (reindex_fills_and_preserves gapFrame gapReg rfl (1, [none])
      (by simp [gapReg])).1 (by simp [gapFrame])⟩

/-- Claim C3: the temperature table is unaffected by the correction, the
redox table with correction corr is the redox table with correction 0 with
corr added to every non-missing cell, and the correction-0 coercion equals
the plain numeric parse (so correction 0 yields exactly the parsed raw
values). -/
theorem correction_offset (path : String) (content : FileContent)
    (rn : Option (List (String × String))) (corr : ℚ) (fr ft fr0 ft0 : QFrame)
    (h : cleanup_redox path content corr rn = .ok (fr, ft))
    (h0 : cleanup_redox path content 0 rn = .ok (fr0, ft0)) :
    ft = ft0 ∧ fr.cols = fr0.cols ∧
    fr.rows = fr0.rows.map
      (fun r => (r.1, r.2.map (Option.map (fun x => x + corr)))) ∧
    coerceCell 0 = parseNum := by
  obtain ⟨s2, e, hr, ht⟩ := cleanup_ok_parts _ _ _ _ _ _ h
  obtain ⟨s2x, e0, hr0, ht0⟩ := cleanup_ok_parts _ _ _ _ _ _ h0
  rw [e] at e0
  cases e0
  have htemp : (coerceFrames corr rn s2).2 = (coerceFrames 0 rn s2).2 := rfl
  rw [htemp] at ht
  have hft : ft = ft0 := by
    cases ht.symm.trans ht0
    rfl
  have hmv := regularize_mapVals (coerceFrames 0 rn s2).1 fr0
    (Option.map (fun x => x + corr)) rfl hr0
  rw [← coerce_shift corr rn s2] at hmv
  rw [hr] at hmv
  have hfr : fr =
      { cols := fr0.cols,
        rows := fr0.rows.map
          (fun r => (r.1, r.2.map (Option.map (fun x => x + corr)))) } := by
    cases hmv
    rfl
  exact ⟨hft, by rw [hfr], by rw [hfr], funext coerceCell_zero⟩

/-- Witness for C3 on the sample input with corrections 200 and 0. -/
theorem correction_offset_witness :
    sampleTemp = sampleTemp ∧ sampleRedox.cols = sampleRedox0.cols ∧
    sampleRedox.rows = sampleRedox0.rows.map
      (fun r => (r.1, r.2.map (Option.map (fun x => x + (200 : ℚ))))) ∧
    coerceCell 0 = parseNum :=
  correction_offset "data.dat" sampleContent none 200 sampleRedox sampleTemp
    sampleRedox0 sampleTemp rfl rfl

/-- Claim C4: the per-cell numeric coercion of the cleanup (tools.py lines
71-77) is a total function; a cell yields the missing-value marker exactly
when it is unparsable as a number, and a parse failure is never an error
(the temperature subset applies parseNum itself, for which the same
equivalence is trivial). -/
theorem coerce_failure_is_marker (corr : ℚ) (v : String) :
    coerceCell corr v = none ↔ parseNum v = none := by
  unfold coerceCell
  exact Option.map_eq_none'

/-- Claim C5: when the parsed rows contain no row whose first cell is the
literal TIMESTAMP, or (with a RECORD column present) no row whose RECORD
cell is the literal string "0", cleanup_redox fails with the index-lookup
error of .index[0] on an empty selection, and in particular returns no
table at all. -/
theorem missing_sentinel (path : String) (content : FileContent) (corr : ℚ)
    (rn : Option (List (String × String))) (df : RawFrame)
    (hload : loadFrame path content = .ok df)
    (h : df.rows.findIdx? (fun r => r.headD "" == "TIMESTAMP") = none ∨
         ∃ hi j, df.rows.findIdx? (fun r => r.headD "" == "TIMESTAMP") = some hi ∧
           colIdx (df.rows.getD hi []) "RECORD" = some j ∧
           df.rows.findIdx? (fun r => r.getD j "" == "0") = none) :
    cleanup_redox path content corr rn = .error .indexErr := by
  unfold cleanup_redox stages12
  rcases h with h | ⟨hi, j, h1, h2, h3⟩
  · simp only [hload, h]
  · simp only [hload, h1, h2, h3]

/-- Witness for C5: an input with no TIMESTAMP-labeled row makes
cleanup_redox fail with the index-lookup error. -/
theorem missing_sentinel_witness :
    cleanup_redox "f.csv" contentNoHeader 200 none = .error Err.indexErr :=
  missing_sentinel "f.csv" contentNoHeader 200 none dfNoHeader rfl (Or.inl rfl)

/-- Claim C6 (code bug): on a non-spreadsheet path whose delimited-text
parse fails, cleanup_redox does NOT report the constructed IOError to the
caller; the except-branch discards it silently and execution continues
until the unbound dataframe name raises NameError at line 48.  The model
evaluates the code at the failing input: the surfaced failure is the
NameError, not the IOError the claim says is reported. -/
theorem swallowed_parse_failure :
    cleanup_redox "data.dat" FileContent.corrupt 200 none =
      .error Err.nameErr ∧
    Err.nameErr ≠ Err.ioErr :=
  ⟨rfl, by decide⟩

/-- Claim C7: both parser branches (spreadsheet and delimited text) skip
exactly one leading file row before anything scans the first column for the
literal TIMESTAMP: the data rows of the loaded frame are the file rows
minus the first. -/
theorem skip_one_leading_row (path : String) (cells : List (List String)) :
    (loadFrame path (FileContent.table cells)).map RawFrame.rows =
      .ok (cells.drop 1) := by
  unfold loadFrame readExcel readCsv
  split <;> rfl

/-- Claim C8: the shared row filter of plot_redox and plot_temp (tools.py
lines 120-121 and 194-195) keeps exactly the rows whose timestamp lies in
the half-open window: strictly after start_date and at or before end_date,
so a row at exactly start_date is excluded and a row at exactly end_date is
included. -/
theorem window_halfopen (f : QFrame) (s e : Nat)
    (p : Nat × List (Option ℚ)) :
    p ∈ (maskFilter f s e).rows ↔ p ∈ f.rows ∧ s < p.1 ∧ p.1 ≤ e := by
  simp [maskFilter, List.mem_filter, and_assoc]

/-- Claim C9: with mean = true, plot_temp plots the single series labeled
"Mean temperature" whose value at each filtered row is the row-wise mean of
the selected node columns (rowMean: sum of the non-missing values divided
by their count), and a row whose selected cells are all missing yields a
missing mean. -/
theorem mean_series (f : QFrame) (nodes : List String) (s e : Nat)
    (ps : List Nat)
    (h : nodes.mapM (fun n => colIdx f.cols n) = some ps) :
    plot_temp f nodes s e true =
      some [("Mean temperature",
        (maskFilter f s e).rows.map
          (fun r => (r.1, rowMean (ps.map (fun i => r.2.getD i none)))))] ∧
    (fun k => rowMean (List.replicate k none)) = (fun _ => none) := by
  constructor
  · show (nodes.mapM (fun n => colIdx f.cols n)).map _ = _
    rw [h]
    rfl
  · funext k
    have hrep : (List.replicate k (none : Option ℚ)).filterMap id = [] := by
      induction k with
      | zero => rfl
      | succ n ih => simp [List.replicate_succ, ih]
    simp [rowMean, hrep]

/-- Witness for C9 on the sample temperature table with the window (0, 3]. -/
theorem mean_series_witness :
    plot_temp sampleTemp ["temp_C_Avg(1)"] 0 3 true =
      some [("Mean temperature",
        (maskFilter sampleTemp 0 3).rows.map
          (fun r => (r.1, rowMean ([0].map (fun i => r.2.getD i none)))))] ∧
    (fun k => rowMean (List.replicate k none)) = (fun _ => none) :=
  mean_series sampleTemp ["temp_C_Avg(1)"] 0 3 [0] rfl

/-- Claim C10: whenever cleanup_redox returns, its two tables carry the
same time index, because both subsets are built over the single shared Time
column before their hourly ranges are computed. -/
theorem indices_identical (path : String) (content : FileContent) (corr : ℚ)
    (rn : Option (List (String × String))) (fr ft : QFrame)
    (h : cleanup_redox path content corr rn = .ok (fr, ft)) :
    fr.rows.map Prod.fst = ft.rows.map Prod.fst := by
  obtain ⟨s2, e, hr, ht⟩ := cleanup_ok_parts _ _ _ _ _ _ h
  rw [regularize_index _ _ hr, regularize_index _ _ ht,
    coerce_fst_redox, coerce_fst_temp]

/-- Witness for C10 on the sample input. -/
theorem indices_identical_witness :
    sampleRedox.rows.map Prod.fst = sampleTemp.rows.map Prod.fst :=
  indices_identical "data.dat" sampleContent 200 none sampleRedox sampleTemp rfl

end SWAPTools
